import Mathlib

/-!
Verification of the ailearn media-studio workflow layer.

Embedding conventions:
- The source is TypeScript.  Optional strings (`string | undefined`) that the
  source inspects only through truthiness (`if (s)`) are modelled as `String`
  with `""` standing for both "absent" and "empty": the source cannot tell the
  two apart, and its own error handling treats them identically.
- Optional objects are modelled as `Option`.
- A function that `throw`s is modelled as returning `Except String α`, the
  thrown message in the `error` constructor.
- Asynchronous calls to the Relay or to the Remote Service are modelled by
  passing each awaited response (or the whole stream of poll responses) as an
  explicit argument, so every definition is a pure function of the mocked
  environment.
-/

namespace AiLearn

/-- Inline image data of a content part, as read by the edit-image workflow
(src/api/proxy.ts lines 445-448). -/
structure InlineData where
  data : String
  mimeType : String
deriving Repr, DecidableEq

/-- One content part of a generateContent response (src/api/proxy.ts lines
442-450).  `text = ""` models an absent or empty text field, which the source
treats identically via truthiness. -/
structure Part where
  text : String
  inlineData : Option InlineData
deriving Repr, DecidableEq

/-- Content of a response candidate (src/api/proxy.ts line 442). -/
structure Content where
  parts : List Part
deriving Repr, DecidableEq

/-- One candidate of a generateContent response (src/api/proxy.ts line 441). -/
structure Candidate where
  content : Content
deriving Repr, DecidableEq

/-- A generateContent response as consumed by editImageWithNanoBanana
(src/api/proxy.ts lines 440-451).  An absent candidates field and an empty
candidates list are indistinguishable to the source (it checks
`response.candidates && response.candidates.length > 0`), so both are `[]`. -/
structure GenerateContentResponse where
  candidates : List Candidate
deriving Repr, DecidableEq

/-- The EditedImagePart result type (src/unnamed/part_000 lines 6-9): a tagged
text-or-image part; for images the content is the constructed data URI. -/
inductive EditedImagePart where
  | text (content : String)
  | image (content : String)
deriving Repr, DecidableEq

/-- Loop body of editImageWithNanoBanana (src/api/proxy.ts lines 443-449): a
part with truthy text becomes a Text part; otherwise, a part with inline data
becomes an Image part with a data URI; otherwise it is skipped. -/
def partToEdited (p : Part) : Option EditedImagePart :=
  if p.text ≠ "" then some (.text p.text)
  else
    match p.inlineData with
    | some d => some (.image ("data:" ++ d.mimeType ++ ";base64," ++ d.data))
    | none => none

/-- Result accumulation of editImageWithNanoBanana (src/api/proxy.ts lines
440-451): only the first candidate is walked, in source order. -/
def editResults (r : GenerateContentResponse) : List EditedImagePart :=
  match r.candidates with
  | [] => []
  | c :: _ => c.content.parts.filterMap partToEdited

/-- Error message thrown when no parts are produced (src/api/proxy.ts line 453). -/
def emptyContentMsg : String :=
  "The model did not return any content. Please try a different prompt or image."

/-- Response processing of editImageWithNanoBanana (src/api/proxy.ts lines
438-455, identical logic at lines 156-171, 302-317, 568-583): map the first
candidate parts in order, fail if nothing was produced. -/
def editImageWithNanoBanana (response : GenerateContentResponse) :
    Except String (List EditedImagePart) :=
  let results := editResults response
  if results.isEmpty then .error emptyContentMsg else .ok results

/-- A part is a text part when it carries (non-empty) text, the discriminant
the source uses at src/api/proxy.ts line 443. -/
def isTextPart (p : Part) : Prop := p.text ≠ ""

/-- A part is an image part when it carries no text but does carry inline
image data (src/api/proxy.ts line 445). -/
def isImagePart (p : Part) : Prop := p.text = "" ∧ p.inlineData.isSome

instance (p : Part) : Decidable (isTextPart p) := by unfold isTextPart; infer_instance

instance (p : Part) : Decidable (isImagePart p) := by unfold isImagePart; infer_instance

/-- Total mapping of a well-formed (text or image) part to its edited part,
used to state order preservation of the edit-image walk. -/
def editedOfPart (p : Part) : EditedImagePart :=
  if p.text ≠ "" then .text p.text
  else
    match p.inlineData with
    | some d => .image ("data:" ++ d.mimeType ++ ";base64," ++ d.data)
    | none => .text ""

/-- One generated image of a generateImages response; the source reads only
`img.image.imageBytes` (src/api/proxy.ts line 418). -/
structure ImagenImage where
  imageBytes : String
deriving Repr, DecidableEq

/-- Wrapper matching the source access path `img.image` (src/api/proxy.ts line 418). -/
structure GeneratedImage where
  image : ImagenImage
deriving Repr, DecidableEq

/-- A generateImages response (src/api/proxy.ts lines 414-418); the source
checks `!response.generatedImages` separately from emptiness, so the field is
an `Option`. -/
structure GenerateImagesResponse where
  generatedImages : Option (List GeneratedImage)
deriving Repr, DecidableEq

/-- Error message thrown when no images are returned (src/api/proxy.ts line 415). -/
def emptyImagesMsg : String :=
  "The model did not return any images. Please try a different prompt."

/-- The fixed generateImages request payload (src/api/proxy.ts lines 404-411):
one image, png output. -/
structure ImagenPayload where
  model : String
  prompt : String
  numberOfImages : Nat
  outputMimeType : String
deriving Repr, DecidableEq

/-- Payload built by generateImageWithImagen (src/api/proxy.ts lines 404-411). -/
def imagenPayload (prompt : String) : ImagenPayload :=
  { model := "imagen-4.0-generate-001", prompt := prompt,
    numberOfImages := 1, outputMimeType := "image/png" }

/-- Response processing of generateImageWithImagen (src/api/proxy.ts lines
403-419, identical logic at lines 112-128, 251-271, 532-548): fail when the
response has no images, otherwise emit one png data URI per image. -/
def generateImageWithImagen (response : GenerateImagesResponse) :
    Except String (List String) :=
  match response.generatedImages with
  | none => .error emptyImagesMsg
  | some imgs =>
    if imgs.isEmpty then .error emptyImagesMsg
    else .ok (imgs.map (fun img => "data:image/png;base64," ++ img.image.imageBytes))

/-- The video object inside a generated video; `uri = ""` models an absent or
empty uri, which the truthiness test at src/api/proxy.ts line 487 conflates. -/
structure Video where
  uri : String
deriving Repr, DecidableEq

/-- One element of `response.generatedVideos` (src/api/proxy.ts line 486). -/
structure GeneratedVideo where
  video : Option Video
deriving Repr, DecidableEq

/-- Response body of a video operation (src/api/proxy.ts line 486); an absent
generatedVideos list and an empty one both defeat the `?.[0]` access, so both
are `[]`. -/
structure VideosResponse where
  generatedVideos : List GeneratedVideo
deriving Repr, DecidableEq

/-- A Video Job Handle: the operation record returned by generateVideos and by
each getVideosOperation poll (src/api/proxy.ts lines 478-486). -/
structure VideoOperation where
  name : String
  done : Bool
  response : Option VideosResponse
deriving Repr, DecidableEq

/-- The optional-chain extraction
`operation.response?.generatedVideos?.[0]?.video?.uri`
(src/api/proxy.ts line 486), collapsed to `""` when any link is absent. -/
def downloadLink (op : VideoOperation) : String :=
  match op.response with
  | none => ""
  | some r =>
    match r.generatedVideos.head? with
    | none => ""
    | some gv =>
      match gv.video with
      | none => ""
      | some v => v.uri

/-- Error message thrown when a done job has no link (src/api/proxy.ts line 488). -/
def incompleteMsg : String :=
  "Video generation completed, but no download link was found."

/-- The polling loop of generateVideoWithVeo (src/api/proxy.ts lines 478-484,
identical at 204-209, 349-355, 606-611): starting from the handle returned by
generateVideos, re-query while not done, consuming one mocked poll response
per not-yet-done handle.  Returns the finishing handle together with the
number of status queries issued, or `none` when the mocked response stream is
exhausted with the job still pending (the source loop would simply keep
polling). -/
def pollUntilDone (op : VideoOperation) (responses : List VideoOperation) :
    Option (VideoOperation × Nat) :=
  if op.done then some (op, 0)
  else
    match responses with
    | [] => none
    | r :: rest => (pollUntilDone r rest).map (fun p => (p.1, p.2 + 1))

/-- generateVideoWithVeo result construction, client-supplied-credential
variant (src/api/proxy.ts lines 606-619, same logic at 204-218 and 349-362):
after polling, extract the download link, fail if it is missing, otherwise
append `&key=<apiKey>` for direct media access. -/
def generateVideoWithVeoClient (apiKey : String) (initial : VideoOperation)
    (polls : List VideoOperation) : Option (Except String String) :=
  (pollUntilDone initial polls).map (fun p =>
    if downloadLink p.1 = "" then .error incompleteMsg
    else .ok (downloadLink p.1 ++ "&key=" ++ apiKey))

/-- generateVideoWithVeo result construction, server-held-credential variant
(src/api/proxy.ts lines 478-493): the Relay is expected to have appended the
credential already, so the extracted link is returned unchanged. -/
def generateVideoWithVeoServer (initial : VideoOperation)
    (polls : List VideoOperation) : Option (Except String String) :=
  (pollUntilDone initial polls).map (fun p =>
    if downloadLink p.1 = "" then .error incompleteMsg
    else .ok (downloadLink p.1))

/-- Opaque request payload forwarded by the Relay; only the operationName
field is ever inspected by the code the claims are about, with `""` for
absent. -/
structure ProxyPayload where
  operationName : String
deriving Repr, DecidableEq

/-- Body of a client-supplied-credential Relay request (src/api/proxy.ts line
18): apiKey and endpoint are strings tested for truthiness, payload is an
object tested for presence. -/
structure ProxyRequestBody where
  apiKey : String
  endpoint : String
  payload : Option ProxyPayload
deriving Repr, DecidableEq

/-- An HTTP request to the Relay; `body = none` models a body that fails JSON
parsing (`req.json()` throws, caught at src/api/proxy.ts line 70). -/
structure ProxyRequest where
  method : String
  body : Option ProxyRequestBody
deriving Repr, DecidableEq

/-- An HTTP response from the Relay: status code plus the error message of the
JSON body (`""` when the response is a success body). -/
structure ProxyResponse where
  status : Nat
  error : String
deriving Repr, DecidableEq

/-- The five endpoint names recognized by the Relay switch
(src/api/proxy.ts lines 31-57). -/
def recognizedEndpoints : List String :=
  ["validate", "generateImages", "generateContent", "generateVideos", "getVideosOperation"]

/-- The Relay handler, client-supplied-credential mode (src/api/proxy.ts lines
9-80): 405 for non-POST, 500 for an unparseable body, 400 when apiKey,
endpoint or payload is missing, 400 for an unrecognized endpoint, otherwise
forward to the Remote Service (abstracted as `remote`), returning 200 on
success and 500 with the thrown message on failure. -/
def handler (remote : String → ProxyPayload → Except String String)
    (req : ProxyRequest) : ProxyResponse :=
  if req.method ≠ "POST" then { status := 405, error := "Method not allowed" }
  else
    match req.body with
    | none => { status := 500, error := "Invalid request body" }
    | some b =>
      match b.payload with
      | none =>
        { status := 400, error := "Missing required parameters: apiKey, endpoint, payload" }
      | some pl =>
        if b.apiKey = "" ∨ b.endpoint = "" then
          { status := 400, error := "Missing required parameters: apiKey, endpoint, payload" }
        else if b.endpoint ∈ recognizedEndpoints then
          match remote b.endpoint pl with
          | .ok _ => { status := 200, error := "" }
          | .error msg => { status := 500, error := msg }
        else { status := 400, error := "Unknown endpoint: " ++ b.endpoint }

/-- Body of a server-held-credential Relay request: endpoint plus payload, no
client credential (spec section 4.1). -/
structure RelayRequestBody where
  endpoint : String
  payload : Option ProxyPayload
deriving Repr, DecidableEq

/-- An HTTP request to the server-held-credential Relay. -/
structure RelayRequest where
  method : String
  body : Option RelayRequestBody
deriving Repr, DecidableEq

/-- A server-held-credential Relay response: status, error message (`""` on
success), and, for getVideosOperation, the (possibly credential-rewritten)
operation body returned to the client. -/
structure RelayResponse where
  status : Nat
  error : String
  operation : Option VideoOperation
deriving Repr, DecidableEq

/-- Error message for a missing server credential (spec sections 4.1 and 7:
surfaced to the operator as a missing-configuration failure). -/
def missingConfigMsg : String := "API key is not configured on the server"

/-- Rewrite of the media URI inside a done video operation: the Relay appends
the credential as a query parameter to the one URI the client extracts
(spec section 4.1, getVideosOperation bullet). -/
def mapVideoUri (f : String → String) (op : VideoOperation) : VideoOperation :=
  { op with
    response := op.response.map (fun r =>
      { r with
        generatedVideos :=
          match r.generatedVideos with
          | [] => []
          | gv :: rest => { gv with video := gv.video.map (fun v => { v with uri := f v.uri }) } :: rest }) }

/-- Modelled from the spec: the server-held-credential-mode Relay handler is
not under src/ — only its client (src/api/proxy.ts lines 370-493) and the
comments there refer to it.  Per spec sections 4.1 and 6: reject non-POST with
405; reject a missing endpoint or payload, or an unrecognized endpoint, with
400; reject with 500 and a missing-configuration message when no credential is
configured in the environment; for getVideosOperation require
payload.operationName (400 when absent), forward a status query built from
that name, and when the returned status is done with a media URI append the
credential as a query parameter to that URI before returning it.  Forwarding
of the other recognized endpoints is abstracted as success, as no claim
depends on their downstream outcome. -/
def relayServerHeld (envKey : String) (remoteStatus : String → VideoOperation)
    (req : RelayRequest) : RelayResponse :=
  if req.method ≠ "POST" then { status := 405, error := "Method not allowed", operation := none }
  else
    match req.body with
    | none => { status := 500, error := "Invalid request body", operation := none }
    | some b =>
      match b.payload with
      | none =>
        { status := 400, error := "Missing required parameters: endpoint, payload", operation := none }
      | some pl =>
        if b.endpoint = "" then
          { status := 400, error := "Missing required parameters: endpoint, payload", operation := none }
        else if b.endpoint ∉ recognizedEndpoints then
          { status := 400, error := "Unknown endpoint: " ++ b.endpoint, operation := none }
        else if envKey = "" then
          { status := 500, error := missingConfigMsg, operation := none }
        else if b.endpoint = "getVideosOperation" then
          if pl.operationName = "" then
            { status := 400, error := "Missing required parameter: operationName", operation := none }
          else
            let op := remoteStatus pl.operationName
            if op.done ∧ downloadLink op ≠ "" then
              { status := 200, error := "",
                operation := some (mapVideoUri (fun u => u ++ "&key=" ++ envKey) op) }
            else { status := 200, error := "", operation := some op }
        else { status := 200, error := "", operation := none }

/-- A getVideosOperation poll request as the server-held client issues it
(src/api/proxy.ts line 483: payload holds only the operation name). -/
def pollRequest (name : String) : RelayRequest :=
  { method := "POST", body := some { endpoint := "getVideosOperation", payload := some { operationName := name } } }

/-- Readiness check, server-held-credential mode (src/api/proxy.ts lines
392-400): true exactly when the validate call to the Relay (its outcome passed
as `probe`) succeeds; any error yields false; total, hence never throws. -/
def checkApiReadiness (probe : Except String Unit) : Bool :=
  match probe with
  | .ok _ => true
  | .error _ => false

/-- Credential validation (src/api/proxy.ts lines 521-530; same logic at
89-104 and 234-249 against the Remote Service directly): false immediately for
an empty credential, otherwise true exactly when the probe call succeeds;
total, hence never throws. -/
def validateApiKey (apiKey : String) (probe : Except String Unit) : Bool :=
  if apiKey = "" then false
  else
    match probe with
    | .ok _ => true
    | .error _ => false

/-- Credential validation instrumented with the number of probe requests
issued (src/api/proxy.ts lines 521-530: the guard at line 522 returns before
callProxy is reached). -/
def validateApiKeyRun (apiKey : String) (probe : Except String Unit) : Bool × Nat :=
  if apiKey = "" then (false, 0)
  else
    match probe with
    | .ok _ => (true, 1)
    | .error _ => (false, 1)

/-- Storage effect of handleApiKeySubmit, src/unnamed/part_003 lines 14-40:
the submitted key is trimmed; an empty submission clears storage, a validated
key is written, a failed validation clears storage — on startup as well
(isInitialLoad only suppresses the spinner).  `validate` is the outcome of
validateApiKey on the trimmed key; the result is the new stored credential. -/
def handleApiKeySubmitA (validate : String → Bool) (key : String)
    (_isInitialLoad : Bool) (_storage : Option String) : Option String :=
  let trimmed := key.trim
  if trimmed = "" then none
  else if validate trimmed then some trimmed
  else none

/-- Storage effect of handleApiKeySubmit, src/unnamed/part_004 lines 143-165:
an empty submission clears storage, a validated key is written, a failed
validation clears storage only when it is not the initial startup check —
a stored credential that fails validation on startup is retained. -/
def handleApiKeySubmitB (validate : String → Bool) (key : String)
    (isInitialLoad : Bool) (storage : Option String) : Option String :=
  if key = "" then none
  else if validate key then some key
  else if !isInitialLoad then none
  else storage

/-- A pending Video Job Handle as returned by a mocked generateVideos or
getVideosOperation call. -/
def pendingOp (name : String) : VideoOperation :=
  { name := name, done := false, response := none }

/-- A finished Video Job Handle carrying a media URI. -/
def doneOp (name uri : String) : VideoOperation :=
  { name := name, done := true,
    response := some { generatedVideos := [{ video := some { uri := uri } }] } }

theorem append_ne_empty_left (a b : String) (h : a ≠ "") : a ++ b ≠ "" := by
  intro hc
  apply h
  have hd := congrArg String.data hc
  simp at hd
  rcases hd with ⟨h1, _⟩
  exact String.ext h1 ▸ rfl

theorem pollUntilDone_done (polls : List VideoOperation) :
    ∀ (init final : VideoOperation) (n : Nat),
      pollUntilDone init polls = some (final, n) → final.done = true := by
  induction polls with
  | nil =>
    intro init final n h
    unfold pollUntilDone at h
    by_cases hd : init.done = true
    · rw [if_pos hd] at h
      cases h
      exact hd
    · rw [if_neg hd] at h
      simp at h
  | cons r rest ih =>
    intro init final n h
    unfold pollUntilDone at h
    by_cases hd : init.done = true
    · rw [if_pos hd] at h
      cases h
      exact hd
    · rw [if_neg hd] at h
      rcases Option.map_eq_some'.mp h with ⟨⟨f, m⟩, hf, he⟩
      cases he
      exact ih r f m hf

theorem partToEdited_eq_some (p : Part) (h : isTextPart p ∨ isImagePart p) :
    partToEdited p = some (editedOfPart p) := by
  rcases h with h | ⟨h1, h2⟩
  · have h' : p.text ≠ "" := h
    simp [partToEdited, editedOfPart, h']
  · rcases Option.isSome_iff_exists.mp h2 with ⟨d, hd⟩
    simp [partToEdited, editedOfPart, h1, hd]

theorem filterMap_eq_map_editedOfPart (ps : List Part)
    (h : ∀ p ∈ ps, isTextPart p ∨ isImagePart p) :
    ps.filterMap partToEdited = ps.map editedOfPart := by
  induction ps with
  | nil => rfl
  | cons p ps ih =>
    rw [List.filterMap_cons_some (partToEdited_eq_some p (h p (by simp))),
      List.map_cons, ih (fun q hq => h q (by simp [hq]))]

/-- C5: the readiness and credential checks return true exactly when the
validate call to the Relay succeeds; any error yields false; both are total
Lean functions of the probe outcome, so they never throw. -/
theorem checkApiReadiness_true_iff_probe_ok :
    (∀ (o : Except String Unit), checkApiReadiness o = true ↔ o = .ok ())
    ∧ (∀ (k : String) (o : Except String Unit),
        validateApiKey k o = true ↔ (k ≠ "" ∧ o = .ok ())) := by
  constructor
  · intro o
    cases o <;> simp [checkApiReadiness]
  · intro k o
    by_cases hk : k = "" <;> cases o <;> simp [validateApiKey, hk]

/-- C7: generateImage fails with the empty-result message on a response with
no images (absent or empty list), and on a response with one image of given
bytes returns exactly one data URI whose prefix is built from the fixed
requested output mime type image/png. -/
theorem generateImageWithImagen_empty_and_singleton :
    ∀ (prompt bytes : String),
      (imagenPayload prompt).outputMimeType = "image/png"
      ∧ (imagenPayload prompt).numberOfImages = 1
      ∧ generateImageWithImagen { generatedImages := none } = .error emptyImagesMsg
      ∧ generateImageWithImagen { generatedImages := some [] } = .error emptyImagesMsg
      ∧ generateImageWithImagen { generatedImages := some [⟨⟨bytes⟩⟩] } =
          .ok ["data:" ++ (imagenPayload prompt).outputMimeType ++ ";base64," ++ bytes] := by
  intro prompt bytes
  exact ⟨rfl, rfl, rfl, rfl, rfl⟩

/-- C9: validateApiKey with an empty credential returns false after issuing
zero probe requests, and the instrumented run agrees with validateApiKey on
the returned boolean for every input. -/
theorem validateApiKeyRun_empty_key_no_request :
    (∀ (probe : Except String Unit), validateApiKeyRun "" probe = (false, 0))
    ∧ (∀ (k : String) (probe : Except String Unit),
        (validateApiKeyRun k probe).fst = validateApiKey k probe) := by
  constructor
  · intro probe
    rfl
  · intro k probe
    by_cases hk : k = "" <;> cases probe <;> simp [validateApiKeyRun, validateApiKey, hk]

/-- C8 counterexample: in the src/unnamed/part_004 variant, a stored
credential that fails validation during the startup (initial-load) check is
retained in storage, not cleared, contradicting the claim that a failed
validation always clears the persisted credential. -/
theorem handleApiKeySubmitB_keeps_stored_key_on_startup_failure :
    handleApiKeySubmitB (fun _ => false) "k" true (some "k") = some "k"
    ∧ handleApiKeySubmitB (fun _ => false) "k" true (some "k") ≠ none := by
  exact ⟨rfl, by decide⟩

/-- C8 amended: the part_003 variant writes the trimmed credential on
successful validation and clears storage on an empty submission or any failed
validation, startup included; the part_004 variant writes on success and
clears on an empty submission or a failed validation of an explicit
(non-startup) submission, but retains the stored credential when a stored key
fails validation on the initial startup check. -/
theorem handleApiKeySubmit_storage_policy :
    (∀ (validate : String → Bool) (key : String) (init : Bool) (st : Option String),
        (key.trim = "" → handleApiKeySubmitA validate key init st = none)
        ∧ (key.trim ≠ "" → validate key.trim = true →
            handleApiKeySubmitA validate key init st = some key.trim)
        ∧ (validate key.trim = false → handleApiKeySubmitA validate key init st = none))
    ∧ (∀ (validate : String → Bool) (key : String) (init : Bool) (st : Option String),
        (key = "" → handleApiKeySubmitB validate key init st = none)
        ∧ (key ≠ "" → validate key = true →
            handleApiKeySubmitB validate key init st = some key)
        ∧ (key ≠ "" → validate key = false → init = false →
            handleApiKeySubmitB validate key init st = none)
        ∧ (key ≠ "" → validate key = false → init = true →
            handleApiKeySubmitB validate key init st = st)) := by
  constructor
  · intro validate key init st
    refine ⟨fun h => ?_, fun h hv => ?_, fun hv => ?_⟩
    · simp [handleApiKeySubmitA, h]
    · simp [handleApiKeySubmitA, h, hv]
    · by_cases h : key.trim = "" <;> simp [handleApiKeySubmitA, h, hv]
  · intro validate key init st
    refine ⟨fun h => ?_, fun h hv => ?_, fun h hv hi => ?_, fun h hv hi => ?_⟩
    · simp [handleApiKeySubmitB, h]
    · simp [handleApiKeySubmitB, h, hv]
    · simp [handleApiKeySubmitB, h, hv, hi]
    · simp [handleApiKeySubmitB, h, hv, hi]

/-- C8 amended witness: a concrete explicit submission with a validating key
is written to storage. -/
theorem handleApiKeySubmit_storage_policy_witness :
    handleApiKeySubmitB (fun _ => true) "k" false (some "old") = some "k" :=
  (handleApiKeySubmit_storage_policy.2 (fun _ => true) "k" false (some "old")).2.1
    (by decide) rfl

/-- C6: an editImage response whose first-candidate parts are each a text part
(a part carrying non-empty text, the discriminant the source itself uses) or
an image part maps, in source order, to exactly the corresponding interleaved
sequence of Text and Image parts; and any response producing zero parts fails
with the empty-result message rather than returning an empty sequence. -/
theorem editImageWithNanoBanana_preserves_interleaving :
    (∀ (parts : List Part) (rest : List Candidate),
        (∀ p ∈ parts, isTextPart p ∨ isImagePart p) → parts ≠ [] →
        editImageWithNanoBanana ⟨⟨⟨parts⟩⟩ :: rest⟩ = .ok (parts.map editedOfPart))
    ∧ (∀ p, isTextPart p → editedOfPart p = .text p.text)
    ∧ (∀ (p : Part) (d : InlineData), p.text = "" → p.inlineData = some d →
        editedOfPart p = .image ("data:" ++ d.mimeType ++ ";base64," ++ d.data))
    ∧ (∀ (resp : GenerateContentResponse), editResults resp = [] →
        editImageWithNanoBanana resp = .error emptyContentMsg) := by
  refine ⟨?_, ?_, ?_, ?_⟩
  · intro parts rest h hne
    simp only [editImageWithNanoBanana, editResults,
      filterMap_eq_map_editedOfPart parts h]
    simp [List.isEmpty_iff, hne]
  · intro p h
    have h' : p.text ≠ "" := h
    simp [editedOfPart, h']
  · intro p d h1 h2
    simp [editedOfPart, h1, h2]
  · intro resp h
    simp [editImageWithNanoBanana, h]

/-- C6 witness: a concrete two-part response, one text part followed by one
image part, maps to the Text-then-Image sequence. -/
theorem editImageWithNanoBanana_preserves_interleaving_witness :
    editImageWithNanoBanana ⟨[⟨⟨[⟨"t1", none⟩, ⟨"", some ⟨"idata", "image/png"⟩⟩]⟩⟩]⟩
      = .ok ([⟨"t1", none⟩, ⟨"", some ⟨"idata", "image/png"⟩⟩].map editedOfPart) :=
  editImageWithNanoBanana_preserves_interleaving.1
    [⟨"t1", none⟩, ⟨"", some ⟨"idata", "image/png"⟩⟩] [] (by decide) (by decide)

/-- C10: the edit-image walk reads only the first candidate, so parts of any
second or later candidate never appear in the output; and a part carrying both
(non-empty) text and inline image data maps to a single Text part, its inline
image data discarded. -/
theorem editImageWithNanoBanana_first_candidate_only :
    (∀ (c1 c2 : Candidate) (rest : List Candidate),
        editResults ⟨c1 :: c2 :: rest⟩ = editResults ⟨[c1]⟩)
    ∧ (∀ (t : String) (d : InlineData), t ≠ "" →
        partToEdited ⟨t, some d⟩ = some (.text t))
    ∧ (∀ (t : String) (d : InlineData) (c2 : Candidate) (rest : List Candidate), t ≠ "" →
        editImageWithNanoBanana ⟨⟨⟨[⟨t, some d⟩]⟩⟩ :: c2 :: rest⟩ = .ok [.text t]) := by
  refine ⟨?_, ?_, ?_⟩
  · intro c1 c2 rest
    rfl
  · intro t d h
    simp [partToEdited, h]
  · intro t d c2 rest h
    simp [editImageWithNanoBanana, editResults, partToEdited, h]

/-- C10 witness: a concrete response with a both-text-and-image part in the
first candidate and a second candidate that is ignored. -/
theorem editImageWithNanoBanana_first_candidate_only_witness :
    editImageWithNanoBanana ⟨⟨⟨[⟨"t", some ⟨"d", "image/png"⟩⟩]⟩⟩ :: ⟨⟨[⟨"zz", none⟩]⟩⟩ :: []⟩
      = .ok [.text "t"] :=
  editImageWithNanoBanana_first_candidate_only.2.2 "t" ⟨"d", "image/png"⟩
    ⟨⟨[⟨"zz", none⟩]⟩⟩ [] (by decide)

/-- C2: every handle the polling loop finishes on has done=true; when that
final handle has no retrievable media URI (absent or empty, which the source
conflates) both variants of generateVideoWithVeo fail with the
incomplete-result message; and neither variant ever returns an empty URI. -/
theorem generateVideoWithVeo_done_without_uri_fails :
    (∀ (init : VideoOperation) (polls : List VideoOperation)
        (final : VideoOperation) (n : Nat),
        pollUntilDone init polls = some (final, n) → final.done = true)
    ∧ (∀ (k : String) (init : VideoOperation) (polls : List VideoOperation)
        (final : VideoOperation) (n : Nat),
        pollUntilDone init polls = some (final, n) → downloadLink final = "" →
        generateVideoWithVeoClient k init polls = some (.error incompleteMsg)
        ∧ generateVideoWithVeoServer init polls = some (.error incompleteMsg))
    ∧ (∀ (init : VideoOperation) (polls : List VideoOperation) (u : String),
        generateVideoWithVeoServer init polls = some (.ok u) → u ≠ "")
    ∧ (∀ (k : String) (init : VideoOperation) (polls : List VideoOperation) (u : String),
        generateVideoWithVeoClient k init polls = some (.ok u) → u ≠ "") := by
  refine ⟨?_, ?_, ?_, ?_⟩
  · intro init polls final n h
    exact pollUntilDone_done polls init final n h
  · intro k init polls final n hp h0
    constructor
    · simp [generateVideoWithVeoClient, hp, h0]
    · simp [generateVideoWithVeoServer, hp, h0]
  · intro init polls u h
    unfold generateVideoWithVeoServer at h
    cases hp : pollUntilDone init polls with
    | none => simp [hp] at h
    | some p =>
      rw [hp] at h
      simp only [Option.map_some', Option.some.injEq] at h
      by_cases hl : downloadLink p.1 = ""
      · rw [if_pos hl] at h
        cases h
      · rw [if_neg hl] at h
        injection h with h
        rw [← h]
        exact hl
  · intro k init polls u h
    unfold generateVideoWithVeoClient at h
    cases hp : pollUntilDone init polls with
    | none => simp [hp] at h
    | some p =>
      rw [hp] at h
      simp only [Option.map_some', Option.some.injEq] at h
      by_cases hl : downloadLink p.1 = ""
      · rw [if_pos hl] at h
        cases h
      · rw [if_neg hl] at h
        injection h with h
        rw [← h]
        exact append_ne_empty_left _ _ (append_ne_empty_left _ _ hl)

/-- C2 witness: a concrete job that finishes immediately with done=true and no
response body fails with the incomplete-result message in both variants. -/
theorem generateVideoWithVeo_done_without_uri_fails_witness :
    generateVideoWithVeoClient "cred" ⟨"op-1", true, none⟩ [] = some (.error incompleteMsg)
    ∧ generateVideoWithVeoServer ⟨"op-1", true, none⟩ [] = some (.error incompleteMsg) :=
  generateVideoWithVeo_done_without_uri_fails.2.1 "cred" ⟨"op-1", true, none⟩ []
    ⟨"op-1", true, none⟩ 0 (by decide) (by decide)

/-- C1: with an initial pending handle and a mocked response stream that is
pending twice and done with URI x on the third status query, both variants of
generateVideoWithVeo issue exactly three status queries and return x with the
credential appended as a query parameter: the client-supplied-credential
variant appends it itself, and in server-held-credential mode the Relay
rewrites the URI of the done handle before the client returns it unchanged. -/
theorem generateVideoWithVeo_three_polls_returns_uri :
    ∀ (x cred : String), x ≠ "" → cred ≠ "" →
      (generateVideoWithVeoClient cred (pendingOp "op-1")
          [pendingOp "op-1", pendingOp "op-1", doneOp "op-1" x]
        = some (.ok (x ++ "&key=" ++ cred)))
      ∧ ((pollUntilDone (pendingOp "op-1")
            [pendingOp "op-1", pendingOp "op-1", doneOp "op-1" x]).map Prod.snd = some 3)
      ∧ ((relayServerHeld cred (fun _ => doneOp "op-1" x) (pollRequest "op-1")).status = 200
          ∧ (relayServerHeld cred (fun _ => doneOp "op-1" x) (pollRequest "op-1")).operation
              = some (doneOp "op-1" (x ++ "&key=" ++ cred)))
      ∧ (generateVideoWithVeoServer (pendingOp "op-1")
            [pendingOp "op-1", pendingOp "op-1", doneOp "op-1" (x ++ "&key=" ++ cred)]
          = some (.ok (x ++ "&key=" ++ cred)))
      ∧ ((pollUntilDone (pendingOp "op-1")
            [pendingOp "op-1", pendingOp "op-1", doneOp "op-1" (x ++ "&key=" ++ cred)]).map
              Prod.snd = some 3) := by
  intro x cred hx hcred
  have hxe : x ++ "&key=" ++ cred ≠ "" :=
    append_ne_empty_left _ _ (append_ne_empty_left _ _ hx)
  refine ⟨?_, ?_, ⟨?_, ?_⟩, ?_, ?_⟩
  · simp [generateVideoWithVeoClient, pollUntilDone, pendingOp, doneOp, downloadLink, hx]
  · simp [pollUntilDone, pendingOp, doneOp]
  · simp [relayServerHeld, pollRequest, recognizedEndpoints, doneOp, downloadLink, hcred, hx]
  · simp [relayServerHeld, pollRequest, recognizedEndpoints, mapVideoUri, doneOp,
      downloadLink, hcred, hx]
  · simp [generateVideoWithVeoServer, pollUntilDone, pendingOp, doneOp, downloadLink, hxe]
  · simp [pollUntilDone, pendingOp, doneOp]

/-- C1 witness: the polling scenario at the concrete URI X and credential cred. -/
theorem generateVideoWithVeo_three_polls_returns_uri_witness :
    (generateVideoWithVeoClient "cred" (pendingOp "op-1")
        [pendingOp "op-1", pendingOp "op-1", doneOp "op-1" "X"]
      = some (.ok ("X" ++ "&key=" ++ "cred")))
    ∧ ((pollUntilDone (pendingOp "op-1")
          [pendingOp "op-1", pendingOp "op-1", doneOp "op-1" "X"]).map Prod.snd = some 3)
    ∧ ((relayServerHeld "cred" (fun _ => doneOp "op-1" "X") (pollRequest "op-1")).status = 200
        ∧ (relayServerHeld "cred" (fun _ => doneOp "op-1" "X") (pollRequest "op-1")).operation
            = some (doneOp "op-1" ("X" ++ "&key=" ++ "cred")))
    ∧ (generateVideoWithVeoServer (pendingOp "op-1")
          [pendingOp "op-1", pendingOp "op-1", doneOp "op-1" ("X" ++ "&key=" ++ "cred")]
        = some (.ok ("X" ++ "&key=" ++ "cred")))
    ∧ ((pollUntilDone (pendingOp "op-1")
          [pendingOp "op-1", pendingOp "op-1", doneOp "op-1" ("X" ++ "&key=" ++ "cred")]).map
            Prod.snd = some 3) :=
  generateVideoWithVeo_three_polls_returns_uri "X" "cred" (by decide) (by decide)

/-- C3: the server-held-credential Relay (modelled from the spec, as only its
client is under src/) rejects a getVideosOperation request whose payload
carries no operationName with 400; with an operationName it returns 200 and
the status-query result for that name, rewritten — when the status is done and
carries a media URI — by appending the credential as a query parameter; the
rewrite sends a present URI u to u followed by the key parameter. -/
theorem relayServerHeld_getVideosOperation_contract :
    ∀ (envKey name : String) (remoteStatus : String → VideoOperation),
      envKey ≠ "" →
      ((relayServerHeld envKey remoteStatus (pollRequest "")).status = 400
       ∧ (name ≠ "" →
          (relayServerHeld envKey remoteStatus (pollRequest name)).status = 200
          ∧ (relayServerHeld envKey remoteStatus (pollRequest name)).operation =
              some (if (remoteStatus name).done ∧ downloadLink (remoteStatus name) ≠ ""
                    then mapVideoUri (fun u => u ++ "&key=" ++ envKey) (remoteStatus name)
                    else remoteStatus name))
       ∧ (∀ (op : VideoOperation) (k : String), downloadLink op ≠ "" →
            downloadLink (mapVideoUri (fun u => u ++ "&key=" ++ k) op) =
              downloadLink op ++ "&key=" ++ k)) := by
  intro envKey name remoteStatus hk
  refine ⟨?_, fun hn => ?_, ?_⟩
  · simp [relayServerHeld, pollRequest, recognizedEndpoints, hk]
  · by_cases hc : (remoteStatus name).done = true ∧ downloadLink (remoteStatus name) ≠ ""
    · constructor <;>
        simp [relayServerHeld, pollRequest, recognizedEndpoints, hk, hn, hc]
    · constructor <;>
        simp [relayServerHeld, pollRequest, recognizedEndpoints, hk, hn, hc]
  · intro op k h
    match hop : op.response with
    | none => simp [downloadLink, hop] at h
    | some r =>
      match hgv : r.generatedVideos with
      | [] => simp [downloadLink, hop, hgv] at h
      | gv :: rest =>
        match hv : gv.video with
        | none => simp [downloadLink, hop, hgv, hv] at h
        | some v => simp [downloadLink, mapVideoUri, hop, hgv, hv]

/-- C3 witness: with a configured credential, a missing operationName is
rejected with 400 and a pending status query returns 200. -/
theorem relayServerHeld_getVideosOperation_contract_witness :
    (relayServerHeld "cred" (fun _ => pendingOp "j") (pollRequest "")).status = 400
    ∧ (relayServerHeld "cred" (fun _ => pendingOp "j") (pollRequest "op-1")).status = 200 :=
  ⟨(relayServerHeld_getVideosOperation_contract "cred" "op-1"
      (fun _ => pendingOp "j") (by decide)).1,
   ((relayServerHeld_getVideosOperation_contract "cred" "op-1"
      (fun _ => pendingOp "j") (by decide)).2.1 (by decide)).1⟩

/-- C4: the Relay under src/ (client-supplied-credential mode) returns 405 for
any non-POST request, 400 for a POST whose body lacks a payload, and 400 for a
POST whose endpoint is not one of the five recognized operation kinds; and the
server-held-credential Relay (modelled from the spec) returns 500 with the
missing-configuration message for a well-formed POST when no credential is
configured in the environment. -/
theorem handler_rejects_malformed_requests :
    (∀ (remote : String → ProxyPayload → Except String String) (req : ProxyRequest),
        req.method ≠ "POST" → (handler remote req).status = 405)
    ∧ (∀ (remote : String → ProxyPayload → Except String String) (b : ProxyRequestBody),
        b.payload = none → (handler remote ⟨"POST", some b⟩).status = 400)
    ∧ (∀ (remote : String → ProxyPayload → Except String String) (b : ProxyRequestBody),
        b.endpoint ∉ recognizedEndpoints → (handler remote ⟨"POST", some b⟩).status = 400)
    ∧ (∀ (remoteStatus : String → VideoOperation) (pl : ProxyPayload),
        (relayServerHeld "" remoteStatus ⟨"POST", some ⟨"generateVideos", some pl⟩⟩).status = 500
        ∧ (relayServerHeld "" remoteStatus
            ⟨"POST", some ⟨"generateVideos", some pl⟩⟩).error = missingConfigMsg) := by
  refine ⟨?_, ?_, ?_, ?_⟩
  · intro remote req h
    simp [handler, h]
  · intro remote b h
    simp [handler, h]
  · intro remote b h
    cases hbp : b.payload with
    | none => simp [handler, hbp]
    | some pl =>
      by_cases hae : b.apiKey = "" ∨ b.endpoint = ""
      · simp [handler, hbp, hae]
      · simp [handler, hbp, hae, h]
  · intro remoteStatus pl
    constructor <;> simp [relayServerHeld, recognizedEndpoints]

/-- C4 witness: concrete instances of each rejection. -/
theorem handler_rejects_malformed_requests_witness :
    (handler (fun _ _ => .ok "") ⟨"GET", none⟩).status = 405
    ∧ (handler (fun _ _ => .ok "") ⟨"POST", some ⟨"k", "validate", none⟩⟩).status = 400
    ∧ (handler (fun _ _ => .ok "") ⟨"POST", some ⟨"k", "unknown", some ⟨""⟩⟩⟩).status = 400
    ∧ (relayServerHeld "" (fun _ => pendingOp "j")
        ⟨"POST", some ⟨"generateVideos", some ⟨""⟩⟩⟩).status = 500 :=
  ⟨handler_rejects_malformed_requests.1 (fun _ _ => .ok "") ⟨"GET", none⟩ (by decide),
   handler_rejects_malformed_requests.2.1 (fun _ _ => .ok "") ⟨"k", "validate", none⟩ rfl,
   handler_rejects_malformed_requests.2.2.1 (fun _ _ => .ok "") ⟨"k", "unknown", some ⟨""⟩⟩
     (by decide),
   (handler_rejects_malformed_requests.2.2.2 (fun _ => pendingOp "j") ⟨""⟩).1⟩

end AiLearn
